import Mathlib

/-!
Verification of the conversation-to-structured-data extraction pipeline of the
Aselo child-helpline backend (`backend/app/services/llm_service.py`,
`backend/app/models/conversation_model.py`, `backend/app/controllers/chat_controller.py`).

The Python code is shallowly embedded: parsed JSON documents become the
inductive `JValue`, dictionaries become association lists (keys produced by
`json.loads` are unique), Python exceptions become `Except Unit`, and the
external model call plus the external `json.loads` parser are parameters of
the extraction pipeline.  Machine integers do not occur on the modelled paths;
JSON numbers are modelled as integers (no claim involves fractional numbers).
-/

namespace Aselo

/-- A parsed JSON document as returned by `json.loads`: null, booleans,
numbers, strings, arrays and objects.  Objects are association lists with
unique keys (the parser collapses duplicates). -/
inductive JValue where
  | null
  | bool (b : Bool)
  | num (n : Int)
  | str (s : String)
  | arr (elems : List JValue)
  | obj (fields : List (String × JValue))

/-- Python truthiness (`bool(x)`) of a parsed JSON value: `None`, `False`,
`0`, `""`, `[]` and `{}` are falsy, everything else truthy. -/
def truthy : JValue → Bool
  | .null => false
  | .bool b => b
  | .num n => n != 0
  | .str s => s != ""
  | .arr elems => !elems.isEmpty
  | .obj fields => !fields.isEmpty

/-- Characters removed by Python `str.strip()` (the ASCII whitespace class;
the exotic Unicode whitespace code points play no role in any claim). -/
def isPySpace (c : Char) : Bool :=
  c = ' ' || c = Char.ofNat 9 || c = Char.ofNat 10 || c = Char.ofNat 13 ||
  c = Char.ofNat 11 || c = Char.ofNat 12

/-- `str.strip()` on the character list of a string. -/
def pyStripList (cs : List Char) : List Char :=
  ((cs.dropWhile isPySpace).reverse.dropWhile isPySpace).reverse

/-- Python `str.strip()`. -/
def pyStrip (s : String) : String :=
  ⟨pyStripList s.data⟩

/-- Python `str.lower()` (the vocabularies are ASCII, where `Char.toLower`
agrees with Python); defined on the character list. -/
def pyLower (s : String) : String :=
  ⟨s.data.map Char.toLower⟩

/-- The single-quote character, kept out of literals for hygiene. -/
def squote : Char := Char.ofNat 39

/-- The backslash character. -/
def bslash : Char := Char.ofNat 92

/-- Python `repr` of a string: single-quoted with backslash and quote
escaping (repr only reaches composite values in the pipeline, and no claim
inspects such a rendering; the non-printable escapes are not modelled). -/
def pyReprStr (s : String) : String :=
  String.singleton squote ++
    String.join (s.data.map (fun c =>
      if c = bslash then String.singleton bslash ++ String.singleton bslash
      else if c = squote then String.singleton bslash ++ String.singleton squote
      else String.singleton c)) ++
  String.singleton squote

mutual

/-- Python `repr` of a parsed JSON value (what `str()` produces on lists and
dicts). -/
def pyRepr : JValue → String
  | .null => "None"
  | .bool true => "True"
  | .bool false => "False"
  | .num n => toString n
  | .str s => pyReprStr s
  | .arr elems => "[" ++ String.intercalate ", " (pyReprList elems) ++ "]"
  | .obj fields => "\x7b" ++ String.intercalate ", " (pyReprObj fields) ++ "\x7d"

/-- `pyRepr` mapped over an array's elements. -/
def pyReprList : List JValue → List String
  | [] => []
  | v :: vs => pyRepr v :: pyReprList vs

/-- `pyRepr` mapped over an object's entries. -/
def pyReprObj : List (String × JValue) → List String
  | [] => []
  | (k, v) :: kvs => (pyReprStr k ++ ": " ++ pyRepr v) :: pyReprObj kvs

end

/-- Python `str()` of a parsed JSON value: identity on strings, `repr`
otherwise (`str` and `repr` agree on `None`, booleans and integers). -/
def pyStr : JValue → String
  | .str s => s
  | v => pyRepr v

/-- Lookup in a parsed-JSON object (`k in d` / `d[k]`); keys are unique, so
first match suffices. -/
def dictGet : List (String × JValue) → String → Option JValue
  | [], _ => none
  | (k1, v1) :: rest, k => if k1 = k then some v1 else dictGet rest k

/-- Python `d.get(k, default)`: the stored value when the key is present
(even when that value is `None`), the default otherwise. -/
def dictGetD (kvs : List (String × JValue)) (k : String) (dflt : JValue) : JValue :=
  (dictGet kvs k).getD dflt

/-- Python `d[k] = v`: replace the binding in place when the key is present,
append it otherwise. -/
def dictSet : List (String × JValue) → String → JValue → List (String × JValue)
  | [], k, v => [(k, v)]
  | (k1, v1) :: rest, k, v =>
    if k1 = k then (k, v) :: rest else (k1, v1) :: dictSet rest k v

/-- The opening-brace character. -/
def lbrace : Char := Char.ofNat 123

/-- The closing-brace character. -/
def rbrace : Char := Char.ofNat 125

/-- Python `str.find(c)`: index of the first occurrence; `none` plays the
role of Python's `-1`. -/
def strFind (s : String) (c : Char) : Option Nat :=
  s.data.findIdx? (· = c)

/-- Python `str.rfind(c)`: index of the last occurrence. -/
def strRFind (s : String) (c : Char) : Option Nat :=
  (s.data.reverse.findIdx? (· = c)).map (fun i => s.data.length - 1 - i)

/-- Python slice `s[i : j + 1]`. -/
def strSlice (s : String) (i j : Nat) : String :=
  ⟨(s.data.drop i).take (j + 1 - i)⟩

/-- `LLMService._clean_json_response`: strip whitespace, locate the first
opening brace and the last closing brace, and return the span between them
(inclusive) when the closing brace comes strictly later; otherwise return the
literal empty-object text. -/
def clean_json_response (raw : String) : String :=
  let cleaned := pyStrip raw
  match strFind cleaned lbrace, strRFind cleaned rbrace with
  | some start_idx, some end_idx =>
    if end_idx > start_idx then strSlice cleaned start_idx end_idx
    else "\x7b\x7d"
  | _, _ => "\x7b\x7d"

/-! ## Enumeration registry (`LLMService` class constants)

Python stores these as `set`s; they carry no order-sensitive behaviour in the
claims (no two members collide case-insensitively), so declaration order is
kept. -/

/-- `LLMService.VALID_PARISHES`. -/
def VALID_PARISHES : List String :=
  ["Kingston", "St. Andrew", "St. Thomas", "St. Catherine", "Clarendon",
   "Manchester", "St. Elizabeth", "Westmoreland", "Hanover", "St. James",
   "Trelawny", "St. Ann", "St. Mary", "Portland", "Unknown"]

/-- `LLMService.VALID_GENDERS`. -/
def VALID_GENDERS : List String :=
  ["Male", "Female", "Other", "Unknown"]

/-- `LLMService.VALID_LIVING_SITUATIONS`. -/
def VALID_LIVING_SITUATIONS : List String :=
  ["Alternative care", "Group residential facility",
   "Homeless or marginally housed", "In detention",
   "Living independently", "With parent(s)", "With relatives",
   "Other", "Unknown"]

/-- `LLMService.VALID_REGIONS`. -/
def VALID_REGIONS : List String :=
  ["Unknown", "Cities", "Rural areas", "Town & semi-dense areas"]

/-- `LLMService.VALID_VULNERABLE_GROUPS`. -/
def VALID_VULNERABLE_GROUPS : List String :=
  ["Child in conflict with the law", "Child living in conflict zone",
   "Child living in poverty", "Child member of an ethnic, racial or religious minority",
   "Child on the move (involuntarily)", "Child on the move (voluntarily)",
   "Child with disability", "LGBTQI+/SOGIESC child",
   "Out-of-school child", "Other"]

/-! ## Typed-record literal vocabularies (`conversation_model.py`)

`conversation_model.py` redefines the same vocabularies as `Literal` types for
pydantic validation of `AutoFillResponse`; they are re-declared here as the
source re-declares them. -/

/-- `conversation_model.CHILD_GENDER`. -/
def CHILD_GENDER : List String :=
  ["Male", "Female", "Other", "Unknown"]

/-- `conversation_model.CHILD_AGE`. -/
def CHILD_AGE : List String :=
  ["Unborn", "0", "01", "02", "03", "04", "05", "06", "07", "08", "09",
   "10", "11", "12", "13", "14", "15", "16", "17", "18", "19", "20",
   "21", "22", "23", "24", "25", ">25", "Unknown"]

/-- `conversation_model.PARISH`. -/
def PARISH : List String :=
  ["Kingston", "St. Andrew", "St. Thomas", "St. Catherine", "Clarendon", "Manchester",
   "St. Elizabeth", "Westmoreland", "Hanover", "St. James", "Trelawny", "St. Ann",
   "St. Mary", "Portland", "Unknown"]

/-- `conversation_model.LIVING_SITUATION`. -/
def LIVING_SITUATION : List String :=
  ["Alternative care", "Group residential facility", "Homeless or marginally housed",
   "In detention", "Living independently", "With parent(s)", "With relatives", "Other", "Unknown"]

/-- `conversation_model.VULNERABLE_GROUPS`. -/
def VULNERABLE_GROUPS : List String :=
  ["Child in conflict with the law", "Child living in conflict zone", "Child living in poverty",
   "Child member of an ethnic, racial or religious minority", "Child on the move (involuntarily)",
   "Child on the move (voluntarily)", "Child with disability", "LGBTQI+/SOGIESC child",
   "Out-of-school child", "Other"]

/-- `conversation_model.REGION`. -/
def REGION : List String :=
  ["Unknown", "Cities", "Rural areas", "Town & semi-dense areas"]

/-- The violence-category taxonomy enumerated in the extraction prompt
(`LLMService._build_extraction_prompt`), the vocabulary the spec says category
suggestions are matched against. -/
def VIOLENCE_TAXONOMY : List String :=
  ["Bullying in school", "Bullying out of school", "Child labour (general)",
   "Child labour (domestic)", "Cyberbullying", "Emotional maltreatment/abuse",
   "Exposure to criminal violence", "Exposure to domestic violence",
   "Exposure to pornography",
   "Gender-based harmful traditional practices (other than FGM)",
   "Harmful traditional practices other than child marriage and FGM",
   "Inappropriate sex talk", "Indecent assault", "Neglect (emotional)",
   "Neglect (education)", "Neglect (health & nutrition)", "Neglect (physical)",
   "Neglect (or negligent treatment)",
   "Online child sexual abuse and exploitation", "Physical maltreatment/abuse",
   "Sexual violence", "Verbal maltreatment/abuse", "Unspecified/Other"]

/-! ## Field normalizer (`_validate_enum_field`, `_normalize_age`,
`_validate_child_data`, `_apply_intelligent_defaults`) -/

/-- `LLMService._validate_enum_field`.  The argument may be any parsed JSON
value (call sites pass `child.get(...)`, with `JValue.null` standing for both
JSON `null` and an absent key — Python `None` in either case).  Falsy values
give `None`; a string is matched exactly and then case-insensitively; a truthy
non-string reaches `value.lower()` (or an unhashable set-membership test) and
raises, modelled by `.error`. -/
def validate_enum_field (value : JValue) (valid_set : List String) :
    Except Unit (Option String) :=
  if !truthy value then .ok none
  else
    match value with
    | .str s =>
      if s ∈ valid_set then .ok (some s)
      else
        match valid_set.find? (fun valid => pyLower s = pyLower valid) with
        | some valid => .ok (some valid)
        | none => .ok none
    | _ => .error ()

/-- `LLMService._normalize_age`: falsy input gives `None`; anything else is
passed through as `str(age).strip()` (the code intentionally leaves age
normalization to the model). -/
def normalize_age (age : JValue) : Option String :=
  if !truthy age then none else some (pyStrip (pyStr age))

/-- The dictionary built by `_validate_child_data` after its final
`None`-stripping comprehension: a fixed key set where `none` is an absent key.
Field names follow the Python dictionary keys. -/
structure ValidatedChild where
  firstName : Option String := none
  lastName : Option String := none
  streetAddress : Option String := none
  phone1 : Option String := none
  phone2 : Option String := none
  nationality : Option String := none
  schoolName : Option String := none
  gradeLevel : Option String := none
  gender : Option String := none
  parish : Option String := none
  livingSituation : Option String := none
  region : Option String := none
  age : Option String := none
  vulnerableGroups : Option (List String) := none
deriving Repr, DecidableEq

/-- One simple string field of `_validate_child_data`:
`if field in child and child[field]: validated[field] = str(child[field]).strip()`. -/
def simpleField (kvs : List (String × JValue)) (field : String) : Option String :=
  match dictGet kvs field with
  | some v => if truthy v then some (pyStrip (pyStr v)) else none
  | none => none

/-- The comprehension `[vg for vg in child["vulnerableGroups"] if vg in
VALID_VULNERABLE_GROUPS]`: string elements are kept when they are vocabulary
members, other hashable elements are dropped, and an unhashable element (list
or dict) raises `TypeError`, modelled by `.error`. -/
def vgFilter : List JValue → Except Unit (List String)
  | [] => .ok []
  | .arr _ :: _ => .error ()
  | .obj _ :: _ => .error ()
  | .str s :: rest => do
    let tail ← vgFilter rest
    if s ∈ VALID_VULNERABLE_GROUPS then return s :: tail else return tail
  | _ :: rest => vgFilter rest

/-- The vulnerable-groups block of `_validate_child_data`: assigned only when
the key is present with a list value, withdrawn again when the filtered list
is empty. -/
def vgField (kvs : List (String × JValue)) : Except Unit (Option (List String)) :=
  match dictGet kvs "vulnerableGroups" with
  | some (.arr elems) => do
    let kept ← vgFilter elems
    pure (if kept.isEmpty then none else some kept)
  | _ => pure none

/-- `LLMService._validate_child_data`.  A non-dict argument raises on its
first `in` / `.get` use (`.error`); otherwise the fields are validated as in
the source and `None` values dropped (absence is `none` here). -/
def validate_child_data (child : JValue) : Except Unit ValidatedChild :=
  match child with
  | .obj kvs => do
    let gender ← validate_enum_field (dictGetD kvs "gender" .null) VALID_GENDERS
    let parish ← validate_enum_field (dictGetD kvs "parish" .null) VALID_PARISHES
    let livingSituation ←
      validate_enum_field (dictGetD kvs "livingSituation" .null) VALID_LIVING_SITUATIONS
    let region ← validate_enum_field (dictGetD kvs "region" .null) VALID_REGIONS
    let vulnerableGroups ← vgField kvs
    return { firstName := simpleField kvs "firstName"
             lastName := simpleField kvs "lastName"
             streetAddress := simpleField kvs "streetAddress"
             phone1 := simpleField kvs "phone1"
             phone2 := simpleField kvs "phone2"
             nationality := simpleField kvs "nationality"
             schoolName := simpleField kvs "schoolName"
             gradeLevel := simpleField kvs "gradeLevel"
             gender := gender
             parish := parish
             livingSituation := livingSituation
             region := region
             age := normalize_age (dictGetD kvs "age" .null)
             vulnerableGroups := vulnerableGroups }
  | _ => .error ()

/-- Python truthiness of an optional string drawn from the validated child
dictionary (`child.get(k)`): absent or empty is falsy. -/
def otruthy : Option String → Bool
  | none => false
  | some s => s != ""

/-- The capital-area parish set of `_apply_intelligent_defaults`. -/
def CAPITAL_PARISHES : List String := ["Kingston", "St. Andrew"]

/-- The rural parish set of `_apply_intelligent_defaults`. -/
def RURAL_PARISHES : List String := ["Portland", "St. Mary", "St. Elizabeth"]

/-- The first block of `_apply_intelligent_defaults`: infer nationality
`"Jamaican(Assumed)"` from a stated valid parish when nationality is falsy. -/
def infer_nationality (child : ValidatedChild) : ValidatedChild :=
  if !otruthy child.nationality && otruthy child.parish
      && VALID_PARISHES.contains (child.parish.getD "")
      && (child.parish.getD "") != "Unknown" then
    { child with nationality := some "Jamaican(Assumed)" }
  else child

/-- The second block of `_apply_intelligent_defaults`: infer region from a
stated parish when region is falsy. -/
def infer_region (child : ValidatedChild) : ValidatedChild :=
  if !otruthy child.region && otruthy child.parish then
    if CAPITAL_PARISHES.contains (child.parish.getD "") then
      { child with region := some "Cities" }
    else if RURAL_PARISHES.contains (child.parish.getD "") then
      { child with region := some "Rural areas" }
    else if VALID_PARISHES.contains (child.parish.getD "")
        && (child.parish.getD "") != "Unknown" then
      { child with region := some "Town & semi-dense areas" }
    else child
  else child

/-- `LLMService._apply_intelligent_defaults`: its two inference blocks run in
source order — nationality first, then region. -/
def apply_intelligent_defaults (child : ValidatedChild) : ValidatedChild :=
  infer_region (infer_nationality child)

/-! ## Extraction orchestrator (`extract_form_data` and its helpers) -/

/-- `CATEGORY_KEYS` as listed inside `extract_form_data`. -/
def CATEGORY_KEYS : List String :=
  ["violence", "mental_health", "family_relationships",
   "education_and_occupation", "peer_relationships",
   "missing_children", "trafficking", "physical_health",
   "accessibility", "discrimination_and_exclusion",
   "sexuality", "disability", "non_counselling_contacts"]

/-- The list comprehension normalizing one category value:
`[str(item).strip() for item in val if isinstance(item, str) and item.strip()]`
(for a string `item`, `str(item)` is `item`). -/
def cleanCategoryList (elems : List JValue) : List String :=
  elems.filterMap (fun item =>
    match item with
    | .str s => if pyStrip s ≠ "" then some (pyStrip s) else none
    | _ => none)

/-- The category-normalization loop of `extract_form_data`: every key of
`CATEGORY_KEYS` is bound, to the cleaned list when the model supplied a list
and to `[]` otherwise.  A non-dict `category` section raises on its first
`.get` (`.error`). -/
def normalize_categories (raw_category : JValue) :
    Except Unit (List (String × List String)) :=
  match raw_category with
  | .obj kvs =>
    .ok (CATEGORY_KEYS.map (fun key =>
      match dictGet kvs key with
      | some (.arr elems) => (key, cleanCategoryList elems)
      | _ => (key, [])))
  | _ => .error ()

/-- Python `x is None` for the result of `d.get(k)`: true when the key is
absent or its stored value is JSON `null`. -/
def isPyNone : Option JValue → Bool
  | none => true
  | some .null => true
  | some _ => false

/-- The summary fix-ups of `extract_form_data`: force a truthy `callSummary`
(default `"Conversation in progress."`) and default `keepConfidential` to
`True` when it `is None`.  A non-dict summary section raises on `.get`
(`.error`). -/
def process_summary (summary : JValue) : Except Unit (List (String × JValue)) :=
  match summary with
  | .obj kvs =>
    let kvs :=
      if !truthy (dictGetD kvs "callSummary" .null) then
        dictSet kvs "callSummary" (.str "Conversation in progress.")
      else kvs
    let kvs :=
      if isPyNone (dictGet kvs "keepConfidential") then
        dictSet kvs "keepConfidential" (.bool true)
      else kvs
    .ok kvs
  | _ => .error ()

/-- `conversation_model.AutoFillResponse`: the typed extraction record, every
field defaulting to absence.  `summary` and `metadata` are free-form
dictionaries (`Dict[str, Any]`), `suggested_categories` maps category names to
string lists. -/
structure AutoFillResponse where
  firstName : Option String := none
  lastName : Option String := none
  gender : Option String := none
  age : Option String := none
  streetAddress : Option String := none
  parish : Option String := none
  phone1 : Option String := none
  phone2 : Option String := none
  nationality : Option String := none
  schoolName : Option String := none
  gradeLevel : Option String := none
  livingSituation : Option String := none
  vulnerableGroups : Option (List String) := none
  region : Option String := none
  suggested_categories : Option (List (String × List String)) := none
  summary : Option (List (String × JValue)) := none
  metadata : Option (List (String × JValue)) := none

/-- Pydantic validation of one `Optional[Literal[...]]` field: absent, or
exactly one of the literal tokens. -/
def litOk (value : Option String) (lits : List String) : Bool :=
  match value with
  | none => true
  | some s => lits.contains s

/-- Pydantic validation of `Optional[List[VULNERABLE_GROUPS]]`. -/
def vgOk (value : Option (List String)) : Bool :=
  match value with
  | none => true
  | some l => l.all (fun s => VULNERABLE_GROUPS.contains s)

/-- Pydantic validation of the `metadata` field (`Optional[Dict[str, Any]]`):
JSON `null` becomes absence, a dict is accepted, anything else is a
validation error. -/
def metaOk (meta : JValue) : Option (Option (List (String × JValue)))  :=
  match meta with
  | .null => some none
  | .obj kvs => some (some kvs)
  | _ => none

/-- The `AutoFillResponse(...)` constructor call of `extract_form_data`
including pydantic validation of the literal-typed fields; a validation
failure is a raised exception (`.error`).  The category argument is always a
dict here, so the `isinstance(category, dict)` guard of the source always
takes its first branch. -/
def mkAutoFillResponse (c : ValidatedChild) (category : List (String × List String))
    (summary : List (String × JValue)) (meta : JValue) :
    Except Unit AutoFillResponse :=
  if litOk c.gender CHILD_GENDER && litOk c.age CHILD_AGE
      && litOk c.parish PARISH && litOk c.livingSituation LIVING_SITUATION
      && litOk c.region REGION && vgOk c.vulnerableGroups then
    match metaOk meta with
    | some meta? =>
      .ok { firstName := c.firstName
            lastName := c.lastName
            gender := c.gender
            age := c.age
            streetAddress := c.streetAddress
            parish := c.parish
            phone1 := c.phone1
            phone2 := c.phone2
            nationality := c.nationality
            schoolName := c.schoolName
            gradeLevel := c.gradeLevel
            livingSituation := c.livingSituation
            vulnerableGroups := c.vulnerableGroups
            region := c.region
            suggested_categories := some category
            summary := some summary
            metadata := meta? }
    | none => .error ()
  else .error ()

/-- The minimal safe record built in both `except` branches of
`extract_form_data`:
`AutoFillResponse(summary=
  {"callSummary": "Unable to auto-fill. Please enter manually."})`. -/
def fallbackResponse : AutoFillResponse :=
  { summary := some [("callSummary", .str "Unable to auto-fill. Please enter manually.")] }

/-- The happy path of `extract_form_data` after a successful JSON parse
(source lines 310-364); any Python exception inside it is `.error` and is
turned into the fallback record by the surrounding `except` clauses. -/
def extract_success (data : JValue) : Except Unit AutoFillResponse :=
  match data with
  | .obj kvs => do
    let child ← validate_child_data (dictGetD kvs "child" (.obj []))
    let child := apply_intelligent_defaults child
    let category ← normalize_categories (dictGetD kvs "category" (.obj []))
    let summary ← process_summary (dictGetD kvs "summary" (.obj []))
    mkAutoFillResponse child category summary (dictGetD kvs "metadata" (.obj []))
  | _ => .error ()

/-- `LLMException` as raised by the service (`error_handler.LLMException`):
message, HTTP status code and error code. -/
structure LLMError where
  message : String
  status_code : Nat
  error_code : String
deriving Repr, DecidableEq

/-- Outcome of the external chat-completion call inside `_make_request`:
a transport/timeout exception, a completion with no choices/message, or a
completion with text content. -/
inductive CompletionResult where
  | transportError (msg : String)
  | noMessage
  | content (text : String)
deriving Repr, DecidableEq

/-- `LLMService._make_request`.  A missing API key raises
`LLM_CONFIG_ERROR`; every failure inside the `try` block — transport errors
and the `LLM_NO_RESPONSE` exception alike — is re-wrapped by the blanket
`except` into an `LLM_API_ERROR` whose message prefixes
`"LLM request failed: "`. -/
def make_request (clientConfigured : Bool) (completion : CompletionResult) :
    Except LLMError String :=
  if !clientConfigured then
    .error ⟨"LLM API key not configured", 500, "LLM_CONFIG_ERROR"⟩
  else
    match completion with
    | .transportError msg =>
      .error ⟨"LLM request failed: " ++ msg, 500, "LLM_API_ERROR"⟩
    | .noMessage =>
      .error ⟨"LLM request failed: No response from LLM", 500, "LLM_API_ERROR"⟩
    | .content text => .ok text

/-- `LLMService.generate_chat_response` viewed from the model call onward:
the `_make_request` outcome is not caught, so an error propagates to the
caller unchanged and a reply is stripped and returned. -/
def generate_chat_response (modelResult : Except LLMError String) :
    Except LLMError String :=
  match modelResult with
  | .error e => .error e
  | .ok reply => .ok (pyStrip reply)

/-- `LLMService.generate_summary` viewed from the model call onward: the
`try`/`except` catches every failure and substitutes a fixed fallback string,
so the caller never sees an error from this operation. -/
def generate_summary (modelResult : Except LLMError String) : String :=
  match modelResult with
  | .ok reply => pyStrip reply
  | .error _ => "Unable to generate summary. Please review conversation manually."

/-- `conversation_model.ChatMessage`; the timestamp (a `datetime`) is an
abstract tick, no modelled code reads it.  `chat_controller` stores caller
messages with sender `"user"` and counselor messages with sender `"bot"`. -/
structure ChatMessage where
  id : String
  sender : String
  message : String
  timestamp : Nat
deriving Repr, DecidableEq

/-- `LLMService._prepare_conversation_context`: one labeled line per stored
message in storage order, `COUNSELOR` when the sender equals `"assistant"`
and `CHILD` otherwise. -/
def prepare_conversation_context (messages : List ChatMessage) : String :=
  String.intercalate "\n" (messages.map (fun msg =>
    (if msg.sender = "assistant" then "COUNSELOR" else "CHILD") ++ ": " ++ msg.message))

/-- `LLMService.extract_form_data` from the model call onward.  The model
call is the `_make_request` outcome; `jsonParse` is the external `json.loads`
(returning `none` on a `JSONDecodeError`).  Both `except` clauses produce the
same fallback record, so every failure — transport error, parse failure, or an
exception in validation/assembly — degrades to `fallbackResponse` and the
operation never raises. -/
def extract_form_data (modelResult : Except LLMError String)
    (jsonParse : String → Option JValue) : AutoFillResponse :=
  match modelResult with
  | .error _ => fallbackResponse
  | .ok raw =>
    match jsonParse (clean_json_response raw) with
    | none => fallbackResponse
    | some data =>
      match extract_success data with
      | .ok response => response
      | .error _ => fallbackResponse

/-! ## Spec-side comparison definitions and concrete claim inputs -/

/-- The parish→region partition stated by the design: capital-area parishes
map to "Cities", the fixed rural subset to "Rural areas", every other parish
to "Town & semi-dense areas". -/
def regionForParish (p : String) : String :=
  if CAPITAL_PARISHES.contains p then "Cities"
  else if RURAL_PARISHES.contains p then "Rural areas"
  else "Town & semi-dense areas"

/-- Modelled from the claim's wording (C5), for comparison with the code:
trim whitespace; when the trimmed text starts with an opening brace use it
as-is; otherwise take the greedy first-brace-to-last-brace span; when no span
exists return the empty-object literal. -/
def clean_json_spec (raw : String) : String :=
  let cleaned := pyStrip raw
  if cleaned.data.head? = some lbrace then cleaned
  else
    match strFind cleaned lbrace, strRFind cleaned rbrace with
    | some start_idx, some end_idx =>
      if end_idx > start_idx then strSlice cleaned start_idx end_idx
      else "\x7b\x7d"
    | _, _ => "\x7b\x7d"

/-- The C5 counterexample input: valid JSON followed by trailing prose, with
no leading wrapping. -/
def C5Input : String := "\x7b\"a\": 1\x7d x"

/-- The model reply used for the C1 counterexample: valid JSON whose
`summary.callSummary` is the number `5` (truthy but not a string). -/
def C1Raw : String := "\x7b\"summary\": \x7b\"callSummary\": 5\x7d\x7d"

/-- `json.loads` outcome of `C1Raw` (what the Python parser returns on it). -/
def C1Parse : String → Option JValue := fun t =>
  if t = C1Raw then some (.obj [("summary", .obj [("callSummary", .num 5)])]) else none

/-- The model reply used for the C2 counterexample: the violence category
contains a string matching nothing in the violence taxonomy. -/
def C2Raw : String := "\x7b\"category\": \x7b\"violence\": [\"zzz\"]\x7d\x7d"

/-- `json.loads` outcome of `C2Raw`. -/
def C2Parse : String → Option JValue := fun t =>
  if t = C2Raw then some (.obj [("category", .obj [("violence", .arr [.str "zzz"])])])
  else none

/-- A transport failure, for exercising the fallback path. -/
def C2Err : LLMError := ⟨"LLM request failed: Request timed out.", 500, "LLM_API_ERROR"⟩

/-- Model reply for the C2 witness: an empty category section. -/
def C2WRaw : String := "\x7b\"category\": \x7b\x7d\x7d"

/-- `json.loads` outcome of `C2WRaw`. -/
def C2WParse : String → Option JValue := fun t =>
  if t = C2WRaw then some (.obj [("category", .obj [])]) else none

/-- The category mapping extracted from `C2WRaw`. -/
def C2WCats : List (String × List String) :=
  [("violence", []), ("mental_health", []), ("family_relationships", []),
   ("education_and_occupation", []), ("peer_relationships", []),
   ("missing_children", []), ("trafficking", []), ("physical_health", []),
   ("accessibility", []), ("discrimination_and_exclusion", []),
   ("sexuality", []), ("disability", []), ("non_counselling_contacts", [])]

/-- Model reply for the C7 counterexample: the model sets the reserved
`summaryAccuracy` key inside the summary section. -/
def C7Raw : String :=
  "\x7b\"summary\": \x7b\"callSummary\": \"ok\", \"summaryAccuracy\": \"Very accurate\"\x7d\x7d"

/-- `json.loads` outcome of `C7Raw`. -/
def C7Parse : String → Option JValue := fun t =>
  if t = C7Raw then
    some (.obj [("summary", .obj
      [("callSummary", .str "ok"), ("summaryAccuracy", .str "Very accurate")])])
  else none

/-- A transport failure used by the C7 witness. -/
def C7WErr : LLMError := ⟨"LLM request failed: Connection error.", 500, "LLM_API_ERROR"⟩

/-- The child section of the C10 input: a correctly extractable first name
and an age string that survives normalization but is no CHILD_AGE literal. -/
def C10CKVs : List (String × JValue) :=
  [("firstName", .str "Maria"), ("age", .str "16 years")]

/-- The parsed C10 model reply. -/
def C10KVs : List (String × JValue) := [("child", .obj C10CKVs)]

/-- The raw C10 model reply. -/
def C10Raw : String :=
  "\x7b\"child\": \x7b\"firstName\": \"Maria\", \"age\": \"16 years\"\x7d\x7d"

/-- `json.loads` outcome of `C10Raw`. -/
def C10Parse : String → Option JValue := fun t =>
  if t = C10Raw then some (.obj C10KVs) else none

/-! ## Supporting lemmas -/

theorem dictGet_dictSet_self (kvs : List (String × JValue)) (k : String) (v : JValue) :
    dictGet (dictSet kvs k v) k = some v := by
  induction kvs with
  | nil => simp [dictSet, dictGet]
  | cons kv rest ih =>
    obtain ⟨k1, v1⟩ := kv
    by_cases h : k1 = k
    · simp [dictSet, dictGet, h]
    · simp [dictSet, dictGet, h, ih]

theorem dictGet_dictSet_ne (kvs : List (String × JValue)) (k k1 : String) (v : JValue)
    (h : k1 ≠ k) : dictGet (dictSet kvs k1 v) k = dictGet kvs k := by
  induction kvs with
  | nil => simp [dictSet, dictGet, h]
  | cons kv rest ih =>
    obtain ⟨k2, v2⟩ := kv
    by_cases h2 : k2 = k1
    · subst h2
      simp [dictSet, dictGet, h]
    · by_cases h3 : k2 = k
      · subst h3
        simp [dictSet, dictGet, h2]
      · simp [dictSet, dictGet, h2, h3, ih]

theorem infer_nationality_parish (c : ValidatedChild) :
    (infer_nationality c).parish = c.parish := by
  unfold infer_nationality; split <;> rfl

theorem infer_nationality_region (c : ValidatedChild) :
    (infer_nationality c).region = c.region := by
  unfold infer_nationality; split <;> rfl

theorem infer_nationality_age (c : ValidatedChild) :
    (infer_nationality c).age = c.age := by
  unfold infer_nationality; split <;> rfl

theorem infer_region_nationality (c : ValidatedChild) :
    (infer_region c).nationality = c.nationality := by
  unfold infer_region
  split
  · split
    · rfl
    · split
      · rfl
      · split <;> rfl
  · rfl

theorem infer_region_age (c : ValidatedChild) :
    (infer_region c).age = c.age := by
  unfold infer_region
  split
  · split
    · rfl
    · split
      · rfl
      · split <;> rfl
  · rfl

theorem apply_intelligent_defaults_age (c : ValidatedChild) :
    (apply_intelligent_defaults c).age = c.age := by
  unfold apply_intelligent_defaults
  rw [infer_region_age, infer_nationality_age]

/-! ## Claims C3, C4, C6, C8, C9 -/

/-- C3 counterexample: the claim says age input "7" normalizes to the
two-digit "07" and a non-sentinel phrase normalizes to absence, but
`_normalize_age` passes both through unchanged. -/
theorem C3_counterexample :
    normalize_age (.str "7") = some "7" ∧ (some "7" : Option String) ≠ some "07" ∧
    normalize_age (.str "not born yet") = some "not born yet" :=
  ⟨rfl, by decide, rfl⟩

/-- C3 amended: `_normalize_age` performs no range check, zero-padding or
sentinel mapping — it yields absence exactly for falsy input and otherwise the
stripped string form of the input unchanged. -/
theorem C3_amended :
    (∀ v : JValue, normalize_age v = none ↔ truthy v = false) ∧
    (∀ s : String, s ≠ "" → normalize_age (.str s) = some (pyStrip s)) := by
  constructor
  · intro v
    unfold normalize_age
    by_cases h : truthy v <;> simp [h]
  · intro s hs
    unfold normalize_age
    simp [truthy, hs, pyStr]

/-- Witness for the hypotheses of `C3_amended` at the concrete input "7". -/
theorem C3_amended_witness :
    ("7" : String) ≠ "" ∧ normalize_age (.str "7") = some (pyStrip "7") :=
  ⟨by decide, C3_amended.2 "7" (by decide)⟩

/-- C4: on a normalized record whose parish is a known valid parish (a
registry member other than "Unknown"), the inference rules derive region by
the fixed partition exactly when region is absent, derive the
assumed-tagged nationality exactly when nationality is absent, and never
override an explicitly stated (normalized) region or nationality. -/
theorem C4_intelligent_defaults :
    ∀ (c : ValidatedChild) (p : String),
      c.parish = some p → p ∈ VALID_PARISHES → p ≠ "Unknown" →
      (c.region = none →
        (apply_intelligent_defaults c).region = some (regionForParish p)) ∧
      (∀ r, c.region = some r → r ∈ VALID_REGIONS →
        (apply_intelligent_defaults c).region = some r) ∧
      (c.nationality = none →
        (apply_intelligent_defaults c).nationality = some "Jamaican(Assumed)") ∧
      (∀ n, c.nationality = some n → n ≠ "" →
        (apply_intelligent_defaults c).nationality = some n) := by
  intro c p hpar hmem hunk
  have hne : p ≠ "" := fun h => by subst h; exact absurd hmem (by decide)
  have hcont : VALID_PARISHES.contains p = true := by
    simp [List.contains, hmem]
  have hpart : (p != "Unknown") = true := by simp [hunk]
  have hp : (p != "") = true := by simp [hne]
  refine ⟨?_, ?_, ?_, ?_⟩
  · intro hreg
    have h1 : (infer_nationality c).region = none := by
      rw [infer_nationality_region, hreg]
    have h2 : (infer_nationality c).parish = some p := by
      rw [infer_nationality_parish, hpar]
    unfold apply_intelligent_defaults infer_region regionForParish
    rw [h1, h2]
    by_cases hc : p ∈ CAPITAL_PARISHES
    · simp [otruthy, hp, hc]
    · by_cases hr : p ∈ RURAL_PARISHES
      · simp [otruthy, hp, hc, hr]
      · simp [otruthy, hp, hc, hr, hmem, hunk]
  · intro r hreg hr
    have hrne : (r != "") = true := by
      have : r ≠ "" := fun h => by subst h; exact absurd hr (by decide)
      simp [this]
    have h1 : (infer_nationality c).region = some r := by
      rw [infer_nationality_region, hreg]
    unfold apply_intelligent_defaults infer_region
    rw [h1]
    simp [otruthy, hrne, h1]
  · intro hnat
    unfold apply_intelligent_defaults
    rw [infer_region_nationality]
    unfold infer_nationality
    rw [hnat, hpar]
    simp [otruthy, hp, hmem, hunk]
  · intro n hnat hn
    have hnb : (n != "") = true := by simp [hn]
    unfold apply_intelligent_defaults
    rw [infer_region_nationality]
    unfold infer_nationality
    rw [hnat]
    simp [otruthy, hnb, hnat]

/-- Witness for the hypotheses of `C4_intelligent_defaults` at the concrete
parish "Kingston" with absent region and nationality. -/
theorem C4_intelligent_defaults_witness :
    (({ parish := some "Kingston" } : ValidatedChild).parish = some "Kingston" ∧
      "Kingston" ∈ VALID_PARISHES ∧ "Kingston" ≠ "Unknown") ∧
    (apply_intelligent_defaults { parish := some "Kingston" }).region =
      some (regionForParish "Kingston") ∧
    (apply_intelligent_defaults { parish := some "Kingston" }).nationality =
      some "Jamaican(Assumed)" :=
  ⟨⟨rfl, by decide, by decide⟩,
   (C4_intelligent_defaults { parish := some "Kingston" } "Kingston" rfl (by decide)
      (by decide)).1 rfl,
   (C4_intelligent_defaults { parish := some "Kingston" } "Kingston" rfl (by decide)
      (by decide)).2.2.1 rfl⟩

/-- Reduction of `_validate_enum_field` on a truthy string input. -/
theorem validate_enum_field_str (s : String) (vocab : List String) (hs : s ≠ "") :
    validate_enum_field (.str s) vocab =
      if s ∈ vocab then .ok (some s)
      else
        match vocab.find? (fun valid => pyLower s = pyLower valid) with
        | some valid => .ok (some valid)
        | none => .ok none := by
  unfold validate_enum_field
  have ht : truthy (.str s) = true := by simp [truthy, hs]
  rw [ht]
  rfl

/-- C6 counterexample: the enum normalizer does not tolerate every input
value — a truthy non-string reaching it raises (`value.lower()` fails with
`AttributeError` on a number, the set-membership test with `TypeError` on an
unhashable list), modelled `.error`; such a value does not normalize to
absence as the claim states. -/
theorem C6_counterexample :
    validate_enum_field (.num 5) VALID_GENDERS = .error () ∧
    validate_enum_field (.arr [.str "Male"]) VALID_GENDERS = .error () ∧
    (Except.error () : Except Unit (Option String)) ≠ .ok none :=
  ⟨rfl, rfl, fun h => Except.noConfusion h⟩

/-- C6 amended: for every enum vocabulary and every input of the declared
`Optional[str]` type — strings and `None`, the only values the normalizer
tolerates; a truthy non-string instead raises and is absorbed by the
extraction path's fallback — the enum normalizer never raises; `None` and the
empty string give absence, an exact vocabulary match is accepted, otherwise a
case-insensitive match is accepted with the vocabulary's canonical casing,
and any other string gives absence — the result is always absent or a
vocabulary member.  `_validate_child_data` applies it to the gender, parish,
living-situation and region vocabularies. -/
theorem C6_enum_normalization :
    ∀ (vocab : List String) (s : String),
      (validate_enum_field .null vocab = .ok none) ∧
      (∃ r, validate_enum_field (.str s) vocab = .ok r ∧
        ∀ t, r = some t → t ∈ vocab) ∧
      (s ≠ "" → s ∈ vocab → validate_enum_field (.str s) vocab = .ok (some s)) ∧
      (s ≠ "" →
        ∀ c, vocab.find? (fun valid => pyLower s = pyLower valid) = some c →
          s ∉ vocab → validate_enum_field (.str s) vocab = .ok (some c)) ∧
      (s ∉ vocab → vocab.find? (fun valid => pyLower s = pyLower valid) = none →
        validate_enum_field (.str s) vocab = .ok none) := by
  intro vocab s
  refine ⟨rfl, ?_, ?_, ?_, ?_⟩
  · by_cases hs : s = ""
    · subst hs
      exact ⟨none, rfl, fun t ht => by cases ht⟩
    · rw [validate_enum_field_str s vocab hs]
      by_cases hmem : s ∈ vocab
      · exact ⟨some s, by simp [hmem], fun t ht => by rw [← Option.some_inj.mp ht]; exact hmem⟩
      · cases hfind : vocab.find? (fun valid => pyLower s = pyLower valid) with
        | none => exact ⟨none, by simp [hmem, hfind], fun t ht => by cases ht⟩
        | some c =>
          refine ⟨some c, by simp [hmem, hfind], fun t ht => ?_⟩
          rw [← Option.some_inj.mp ht]
          exact List.mem_of_find?_eq_some hfind
  · intro hs hmem
    rw [validate_enum_field_str s vocab hs]
    simp [hmem]
  · intro hs c hfind hmem
    rw [validate_enum_field_str s vocab hs]
    simp [hmem, hfind]
  · intro hmem hfind
    by_cases hs : s = ""
    · subst hs; rfl
    · rw [validate_enum_field_str s vocab hs]
      simp [hmem, hfind]

/-- Witness for the hypotheses of `C6_enum_normalization` at the concrete
input "male" against the gender vocabulary: case-insensitive acceptance with
canonical casing "Male". -/
theorem C6_enum_normalization_witness :
    ("male" : String) ≠ "" ∧
    VALID_GENDERS.find? (fun valid => pyLower "male" = pyLower valid) = some "Male" ∧
    "male" ∉ VALID_GENDERS ∧
    validate_enum_field (.str "male") VALID_GENDERS = .ok (some "Male") :=
  ⟨by decide, by decide, by decide,
   (C6_enum_normalization VALID_GENDERS "male").2.2.2.1 (by decide) "Male" (by decide)
     (by decide)⟩

/-- C8 counterexample: for a failed model call the summary operation does not
propagate the typed error — it substitutes fixed fallback text. -/
theorem C8_counterexample :
    generate_summary
      (.error ⟨"LLM request failed: Request timed out.", 500, "LLM_API_ERROR"⟩) =
      "Unable to generate summary. Please review conversation manually." := rfl

/-- C8 amended: every model-invocation failure (missing configuration,
transport error, empty completion) is wrapped by `_make_request` into the
single typed error category (`LLMException`, status 500, config/API error
codes); the chat operation propagates that error to its caller unchanged,
while the summary operation catches it and returns fixed fallback text
instead of an error. -/
theorem C8_amended :
    (∀ completion, make_request false completion =
      .error ⟨"LLM API key not configured", 500, "LLM_CONFIG_ERROR"⟩) ∧
    (∀ msg, make_request true (.transportError msg) =
      .error ⟨"LLM request failed: " ++ msg, 500, "LLM_API_ERROR"⟩) ∧
    (make_request true .noMessage =
      .error ⟨"LLM request failed: No response from LLM", 500, "LLM_API_ERROR"⟩) ∧
    (∀ e, generate_chat_response (.error e) = .error e) ∧
    (∀ text, generate_chat_response (.ok text) = .ok (pyStrip text)) ∧
    (∀ e, generate_summary (.error e) =
      "Unable to generate summary. Please review conversation manually.") :=
  ⟨fun _ => rfl, fun _ => rfl, rfl, fun _ => rfl, fun _ => rfl, fun _ => rfl⟩

/-- C9: evaluation of the transcript formatter on a stored two-message
conversation exactly as `chat_controller.process_chat_message` stores it
(caller messages have sender "user", counselor messages sender "bot").  The
formatter labels the counselor's message CHILD, because its counselor test
compares the sender against "assistant", a value no stored message carries —
the claimed counselor labeling never happens for stored transcripts. -/
theorem C9_code_evaluation :
    prepare_conversation_context
      [⟨"m1", "user", "I need help", 0⟩, ⟨"m2", "bot", "I am here for you", 1⟩] =
      "CHILD: I need help\nCHILD: I am here for you" := rfl

/-! ## Pipeline inversion lemmas -/

theorem extract_error (e : LLMError) (jsonParse : String → Option JValue) :
    extract_form_data (.error e) jsonParse = fallbackResponse := rfl

theorem extract_ok_parse_none (raw : String) (jsonParse : String → Option JValue)
    (hp : jsonParse (clean_json_response raw) = none) :
    extract_form_data (.ok raw) jsonParse = fallbackResponse := by
  unfold extract_form_data
  dsimp only
  rw [hp]

theorem extract_ok_success_error (raw : String) (jsonParse : String → Option JValue)
    (data : JValue) (e : Unit) (hp : jsonParse (clean_json_response raw) = some data)
    (hes : extract_success data = .error e) :
    extract_form_data (.ok raw) jsonParse = fallbackResponse := by
  unfold extract_form_data
  dsimp only
  rw [hp]
  dsimp only
  rw [hes]

theorem extract_ok_success_ok (raw : String) (jsonParse : String → Option JValue)
    (data : JValue) (resp : AutoFillResponse)
    (hp : jsonParse (clean_json_response raw) = some data)
    (hes : extract_success data = .ok resp) :
    extract_form_data (.ok raw) jsonParse = resp := by
  unfold extract_form_data
  dsimp only
  rw [hp]
  dsimp only
  rw [hes]

theorem except_bind_eq_ok {ε α β : Type} {x : Except ε α} {f : α → Except ε β} {b : β} :
    x >>= f = .ok b → ∃ a, x = .ok a ∧ f a = .ok b := by
  cases x with
  | error e => intro h; exact Except.noConfusion h
  | ok a => intro h; exact ⟨a, rfl, h⟩

theorem mkAutoFillResponse_eq_ok (c : ValidatedChild)
    (category : List (String × List String)) (summary : List (String × JValue))
    (meta : JValue) (resp : AutoFillResponse) :
    mkAutoFillResponse c category summary meta = .ok resp →
    resp.summary = some summary ∧ resp.suggested_categories = some category ∧
    litOk c.age CHILD_AGE = true := by
  intro h
  unfold mkAutoFillResponse at h
  by_cases hok : (litOk c.gender CHILD_GENDER && litOk c.age CHILD_AGE
      && litOk c.parish PARISH && litOk c.livingSituation LIVING_SITUATION
      && litOk c.region REGION && vgOk c.vulnerableGroups) = true
  · rw [if_pos hok] at h
    cases hmeta : metaOk meta with
    | none => rw [hmeta] at h; exact Except.noConfusion h
    | some m =>
      rw [hmeta] at h
      injection h with h
      subst h
      refine ⟨rfl, rfl, ?_⟩
      simp only [Bool.and_eq_true] at hok
      exact hok.1.1.1.1.2
  · rw [if_neg hok] at h
    exact Except.noConfusion h

theorem extract_success_eq_ok (data : JValue) (resp : AutoFillResponse) :
    extract_success data = .ok resp →
    ∃ kvs child category summary,
      data = .obj kvs ∧
      validate_child_data (dictGetD kvs "child" (.obj [])) = .ok child ∧
      normalize_categories (dictGetD kvs "category" (.obj [])) = .ok category ∧
      process_summary (dictGetD kvs "summary" (.obj [])) = .ok summary ∧
      mkAutoFillResponse (apply_intelligent_defaults child) category summary
        (dictGetD kvs "metadata" (.obj [])) = .ok resp := by
  intro h
  cases data with
  | obj kvs =>
    unfold extract_success at h
    obtain ⟨child, hchild, h⟩ := except_bind_eq_ok h
    obtain ⟨category, hcat, h⟩ := except_bind_eq_ok h
    obtain ⟨summary, hsum, h⟩ := except_bind_eq_ok h
    exact ⟨kvs, child, category, summary, rfl, hchild, hcat, hsum, h⟩
  | null => exact Except.noConfusion h
  | bool b => exact Except.noConfusion h
  | num n => exact Except.noConfusion h
  | str s => exact Except.noConfusion h
  | arr elems => exact Except.noConfusion h

theorem validate_child_data_age (kvs : List (String × JValue)) (child : ValidatedChild) :
    validate_child_data (.obj kvs) = .ok child →
    child.age = normalize_age (dictGetD kvs "age" .null) := by
  intro h
  unfold validate_child_data at h
  obtain ⟨g, hg, h⟩ := except_bind_eq_ok h
  obtain ⟨p, hp, h⟩ := except_bind_eq_ok h
  obtain ⟨ls, hls, h⟩ := except_bind_eq_ok h
  obtain ⟨r, hr, h⟩ := except_bind_eq_ok h
  obtain ⟨vg, hvg, h⟩ := except_bind_eq_ok h
  injection h with h
  rw [← h]

theorem process_summary_eq_ok (s : JValue) (kvs : List (String × JValue)) :
    process_summary s = .ok kvs →
    ∃ skvs, s = .obj skvs ∧
      (∀ k, k ≠ "callSummary" → k ≠ "keepConfidential" →
        dictGet kvs k = dictGet skvs k) ∧
      ∃ v, dictGet kvs "callSummary" = some v ∧ truthy v = true := by
  intro h
  cases s with
  | obj skvs =>
    unfold process_summary at h
    injection h with h
    refine ⟨skvs, rfl, ?_, ?_⟩
    · intro k hk1 hk2
      rw [← h]
      by_cases hc1 : truthy (dictGetD skvs "callSummary" .null)
      · simp only [hc1, Bool.not_true, Bool.false_eq_true, if_false]
        by_cases hc2 : isPyNone (dictGet skvs "keepConfidential") = true
        · rw [if_pos hc2]
          exact dictGet_dictSet_ne skvs k "keepConfidential" (.bool true)
            (fun hx => hk2 hx.symm)
        · rw [if_neg hc2]
      · simp only [hc1, Bool.not_false, if_true]
        have e1 : dictGet (dictSet skvs "callSummary" (.str "Conversation in progress.")) k =
            dictGet skvs k :=
          dictGet_dictSet_ne skvs k "callSummary" _ (fun hx => hk1 hx.symm)
        by_cases hc2 : isPyNone (dictGet
            (dictSet skvs "callSummary" (.str "Conversation in progress."))
            "keepConfidential") = true
        · rw [if_pos hc2]
          rw [dictGet_dictSet_ne _ k "keepConfidential" (.bool true) (fun hx => hk2 hx.symm)]
          exact e1
        · rw [if_neg hc2]
          exact e1
    · rw [← h]
      by_cases hc1 : truthy (dictGetD skvs "callSummary" .null)
      · simp only [hc1, Bool.not_true, Bool.false_eq_true, if_false]
        have e0 : ∃ v, dictGet skvs "callSummary" = some v ∧ truthy v = true := by
          cases hg : dictGet skvs "callSummary" with
          | none =>
            exfalso
            rw [dictGetD, hg] at hc1
            exact Bool.noConfusion hc1
          | some v =>
            rw [dictGetD, hg] at hc1
            exact ⟨v, rfl, hc1⟩
        by_cases hc2 : isPyNone (dictGet skvs "keepConfidential") = true
        · rw [if_pos hc2]
          obtain ⟨v, hv, htv⟩ := e0
          refine ⟨v, ?_, htv⟩
          rw [dictGet_dictSet_ne skvs "callSummary" "keepConfidential" (.bool true)
            (by decide)]
          exact hv
        · rw [if_neg hc2]
          exact e0
      · simp only [hc1, Bool.not_false, if_true]
        have e1 : dictGet (dictSet skvs "callSummary" (.str "Conversation in progress."))
            "callSummary" = some (.str "Conversation in progress.") :=
          dictGet_dictSet_self skvs "callSummary" _
        by_cases hc2 : isPyNone (dictGet
            (dictSet skvs "callSummary" (.str "Conversation in progress."))
            "keepConfidential") = true
        · rw [if_pos hc2]
          refine ⟨.str "Conversation in progress.", ?_, rfl⟩
          rw [dictGet_dictSet_ne _ "callSummary" "keepConfidential" (.bool true) (by decide)]
          exact e1
        · rw [if_neg hc2]
          exact ⟨.str "Conversation in progress.", e1, rfl⟩
  | null => exact Except.noConfusion h
  | bool b => exact Except.noConfusion h
  | num n => exact Except.noConfusion h
  | str t => exact Except.noConfusion h
  | arr elems => exact Except.noConfusion h

theorem mem_cleanCategoryList (elems : List JValue) (s : String) :
    s ∈ cleanCategoryList elems →
    s ≠ "" ∧ ∃ t, JValue.str t ∈ elems ∧ s = pyStrip t := by
  intro h
  unfold cleanCategoryList at h
  rw [List.mem_filterMap] at h
  obtain ⟨a, ha, hfa⟩ := h
  cases a with
  | str t =>
    dsimp only at hfa
    by_cases ht : pyStrip t ≠ ""
    · rw [if_pos ht] at hfa
      injection hfa with hfa
      exact ⟨hfa ▸ ht, t, ha, hfa.symm⟩
    · rw [if_neg ht] at hfa
      exact Option.noConfusion hfa
  | null => exact Option.noConfusion hfa
  | bool b => exact Option.noConfusion hfa
  | num n => exact Option.noConfusion hfa
  | arr es => exact Option.noConfusion hfa
  | obj kvs => exact Option.noConfusion hfa

theorem normalize_categories_eq_ok (rc : JValue) (m : List (String × List String)) :
    normalize_categories rc = .ok m →
    ∃ ckvs, rc = .obj ckvs ∧
      m = CATEGORY_KEYS.map (fun key =>
        match dictGet ckvs key with
        | some (.arr elems) => (key, cleanCategoryList elems)
        | _ => (key, [])) := by
  intro h
  cases rc with
  | obj ckvs =>
    unfold normalize_categories at h
    injection h with h
    exact ⟨ckvs, rfl, h.symm⟩
  | null => exact Except.noConfusion h
  | bool b => exact Except.noConfusion h
  | num n => exact Except.noConfusion h
  | str t => exact Except.noConfusion h
  | arr elems => exact Except.noConfusion h

theorem normalize_categories_keys (rc : JValue) (m : List (String × List String)) :
    normalize_categories rc = .ok m → m.map Prod.fst = CATEGORY_KEYS := by
  intro h
  obtain ⟨ckvs, _, hm⟩ := normalize_categories_eq_ok rc m h
  subst hm
  rw [List.map_map]
  conv_rhs => rw [← List.map_id CATEGORY_KEYS]
  apply List.map_congr_left
  intro key _
  cases hd : dictGet ckvs key with
  | none => simp [Function.comp, hd]
  | some v => cases v <;> simp [Function.comp, hd]

theorem normalize_categories_elems (rc : JValue) (m : List (String × List String)) :
    normalize_categories rc = .ok m →
    ∀ k l, (k, l) ∈ m → ∀ s ∈ l, s ≠ "" := by
  intro h k l hkl s hs
  obtain ⟨ckvs, _, hm⟩ := normalize_categories_eq_ok rc m h
  subst hm
  rw [List.mem_map] at hkl
  obtain ⟨key, _, hf⟩ := hkl
  cases hd : dictGet ckvs key with
  | none =>
    rw [hd] at hf
    injection hf with _ hl
    subst hl
    cases hs
  | some v =>
    cases v with
    | arr elems =>
      rw [hd] at hf
      injection hf with _ hl
      subst hl
      exact (mem_cleanCategoryList elems s hs).1
    | null => rw [hd] at hf; injection hf with _ hl; subst hl; cases hs
    | bool b => rw [hd] at hf; injection hf with _ hl; subst hl; cases hs
    | num n => rw [hd] at hf; injection hf with _ hl; subst hl; cases hs
    | str t => rw [hd] at hf; injection hf with _ hl; subst hl; cases hs
    | obj kvs2 => rw [hd] at hf; injection hf with _ hl; subst hl; cases hs

/-! ## Claims C1, C2, C7, C10 -/

/-- C1 counterexample: a model reply whose `summary.callSummary` is the JSON
number `5` is passed through — the returned record's `callSummary` is `5`,
which is not a (non-empty) string, contradicting the claim that `callSummary`
is a non-empty string for every model behaviour. -/
theorem C1_counterexample :
    (extract_form_data (.ok C1Raw) C1Parse).summary =
      some [("callSummary", JValue.num 5), ("keepConfidential", JValue.bool true)] ∧
    ∀ s : String, JValue.num 5 ≠ JValue.str s :=
  ⟨rfl, fun _ h => JValue.noConfusion h⟩

/-- C1 amended: the extraction operation is total (never an exception to its
caller) and always returns a record whose summary has a truthy `callSummary`
entry — a non-empty string whenever the model supplied none, a falsy value or
a string, but a truthy non-string model value is passed through unchanged.
Every run either returns exactly the fallback record (all fields absent
except the fixed placeholder `callSummary`) or the assembled record of a
fully successful pipeline. -/
theorem C1_amended :
    (∀ (modelResult : Except LLMError String) (jsonParse : String → Option JValue),
      ∃ l v, (extract_form_data modelResult jsonParse).summary = some l ∧
        dictGet l "callSummary" = some v ∧ truthy v = true) ∧
    (∀ (modelResult : Except LLMError String) (jsonParse : String → Option JValue),
      extract_form_data modelResult jsonParse = fallbackResponse ∨
      ∃ raw data resp, modelResult = .ok raw ∧
        jsonParse (clean_json_response raw) = some data ∧
        extract_success data = .ok resp ∧
        extract_form_data modelResult jsonParse = resp) ∧
    (fallbackResponse.firstName = none ∧ fallbackResponse.lastName = none ∧
     fallbackResponse.gender = none ∧ fallbackResponse.age = none ∧
     fallbackResponse.streetAddress = none ∧ fallbackResponse.parish = none ∧
     fallbackResponse.phone1 = none ∧ fallbackResponse.phone2 = none ∧
     fallbackResponse.nationality = none ∧ fallbackResponse.schoolName = none ∧
     fallbackResponse.gradeLevel = none ∧ fallbackResponse.livingSituation = none ∧
     fallbackResponse.vulnerableGroups = none ∧ fallbackResponse.region = none ∧
     fallbackResponse.suggested_categories = none ∧ fallbackResponse.metadata = none ∧
     fallbackResponse.summary =
       some [("callSummary", .str "Unable to auto-fill. Please enter manually.")]) := by
  refine ⟨?_, ?_, rfl, rfl, rfl, rfl, rfl, rfl, rfl, rfl, rfl, rfl, rfl, rfl, rfl, rfl,
    rfl, rfl, rfl⟩
  · intro mr parse
    cases mr with
    | error e =>
      exact ⟨[("callSummary", .str "Unable to auto-fill. Please enter manually.")],
        .str "Unable to auto-fill. Please enter manually.", rfl, rfl, rfl⟩
    | ok raw =>
      cases hp : parse (clean_json_response raw) with
      | none =>
        refine ⟨[("callSummary", .str "Unable to auto-fill. Please enter manually.")],
          .str "Unable to auto-fill. Please enter manually.", ?_, rfl, rfl⟩
        rw [extract_ok_parse_none raw parse hp]
        rfl
      | some data =>
        cases hes : extract_success data with
        | error e =>
          refine ⟨[("callSummary", .str "Unable to auto-fill. Please enter manually.")],
            .str "Unable to auto-fill. Please enter manually.", ?_, rfl, rfl⟩
          rw [extract_ok_success_error raw parse data e hp hes]
          rfl
        | ok resp =>
          obtain ⟨kvs, child, category, summary, hobj, hchild, hcat, hsum, hmk⟩ :=
            extract_success_eq_ok data resp hes
          obtain ⟨hrs, _, _⟩ := mkAutoFillResponse_eq_ok _ _ _ _ _ hmk
          obtain ⟨skvs, _, _, v, hv, htv⟩ := process_summary_eq_ok _ _ hsum
          refine ⟨summary, v, ?_, hv, htv⟩
          rw [extract_ok_success_ok raw parse data resp hp hes]
          exact hrs
  · intro mr parse
    cases mr with
    | error e => exact Or.inl rfl
    | ok raw =>
      cases hp : parse (clean_json_response raw) with
      | none => exact Or.inl (extract_ok_parse_none raw parse hp)
      | some data =>
        cases hes : extract_success data with
        | error e => exact Or.inl (extract_ok_success_error raw parse data e hp hes)
        | ok resp =>
          exact Or.inr ⟨raw, data, resp, rfl, hp, hes,
            extract_ok_success_ok raw parse data resp hp hes⟩

/-- C2 counterexample: (i) the category normalization keeps the string "zzz"
in the violence list even though it matches nothing in the violence taxonomy
— the claimed vocabulary filtering does not exist; (ii) a record returned on
the fallback path has no category mapping at all, rather than the 13 keys. -/
theorem C2_counterexample :
    (extract_form_data (.ok C2Raw) C2Parse).suggested_categories =
      some [("violence", ["zzz"]), ("mental_health", []), ("family_relationships", []),
        ("education_and_occupation", []), ("peer_relationships", []),
        ("missing_children", []), ("trafficking", []), ("physical_health", []),
        ("accessibility", []), ("discrimination_and_exclusion", []),
        ("sexuality", []), ("disability", []), ("non_counselling_contacts", [])] ∧
    "zzz" ∉ VIOLENCE_TAXONOMY ∧
    extract_form_data (.error C2Err) C2Parse = fallbackResponse ∧
    fallbackResponse.suggested_categories = none :=
  ⟨rfl, by decide, rfl, rfl⟩

/-- C2 amended: whenever the returned record carries a category mapping (the
successful path; the fallback record carries none), that mapping has exactly
the 13 fixed keys in order and every entry is a list of non-empty strings —
each the stripped form of a string element the model supplied, kept with no
check against the category taxonomy; a category key the model omitted (or
bound to a non-list) maps to the empty list. -/
theorem C2_amended :
    (∀ (modelResult : Except LLMError String) (jsonParse : String → Option JValue) m,
      (extract_form_data modelResult jsonParse).suggested_categories = some m →
      m.map Prod.fst = CATEGORY_KEYS ∧ ∀ k l, (k, l) ∈ m → ∀ s ∈ l, s ≠ "") ∧
    (∀ ckvs m, normalize_categories (.obj ckvs) = .ok m →
      ∀ k, k ∈ CATEGORY_KEYS → dictGet ckvs k = none → (k, []) ∈ m) ∧
    (∀ elems s, s ∈ cleanCategoryList elems →
      s ≠ "" ∧ ∃ t, JValue.str t ∈ elems ∧ s = pyStrip t) := by
  refine ⟨?_, ?_, mem_cleanCategoryList⟩
  · intro mr parse m hm
    cases mr with
    | error e => exact Option.noConfusion hm
    | ok raw =>
      cases hp : parse (clean_json_response raw) with
      | none =>
        rw [extract_ok_parse_none raw parse hp] at hm
        exact Option.noConfusion hm
      | some data =>
        cases hes : extract_success data with
        | error e =>
          rw [extract_ok_success_error raw parse data e hp hes] at hm
          exact Option.noConfusion hm
        | ok resp =>
          rw [extract_ok_success_ok raw parse data resp hp hes] at hm
          obtain ⟨kvs, child, category, summary, hobj, hchild, hcat, hsum, hmk⟩ :=
            extract_success_eq_ok data resp hes
          obtain ⟨_, hrc, _⟩ := mkAutoFillResponse_eq_ok _ _ _ _ _ hmk
          rw [hrc] at hm
          injection hm with hm
          subst hm
          exact ⟨normalize_categories_keys _ _ hcat, normalize_categories_elems _ _ hcat⟩
  · intro ckvs m h k hk hd
    obtain ⟨ckvs2, heq, hm⟩ := normalize_categories_eq_ok _ _ h
    injection heq with heq
    subst heq
    subst hm
    exact List.mem_map.mpr ⟨k, hk, by simp [hd]⟩

/-- Witness for the hypotheses of `C2_amended` on a concrete empty category
section, including the omitted-key clause for "trafficking" and the
element-shape clause on a concrete list. -/
theorem C2_amended_witness :
    ((extract_form_data (.ok C2WRaw) C2WParse).suggested_categories = some C2WCats ∧
      (C2WCats.map Prod.fst = CATEGORY_KEYS ∧
        ∀ k l, (k, l) ∈ C2WCats → ∀ s ∈ l, s ≠ "")) ∧
    (normalize_categories (.obj []) = .ok C2WCats ∧
      ("trafficking" : String) ∈ CATEGORY_KEYS ∧
      dictGet [] "trafficking" = none ∧
      ("trafficking", ([] : List String)) ∈ C2WCats) ∧
    (("a" : String) ∈ cleanCategoryList [.str " a "] ∧
      ("a" : String) ≠ "" ∧ ∃ t, JValue.str t ∈ [JValue.str " a "] ∧ "a" = pyStrip t) :=
  ⟨⟨rfl, C2_amended.1 (.ok C2WRaw) C2WParse C2WCats rfl⟩,
   ⟨rfl, by decide, rfl,
    C2_amended.2.1 [] C2WCats rfl "trafficking" (by decide) rfl⟩,
   ⟨by decide, C2_amended.2.2 [.str " a "] "a" (by decide)⟩⟩

/-- C7 counterexample: a model-supplied `summaryAccuracy` value survives into
the returned record's summary dictionary — the pipeline does not force the
reserved human-only fields to absent. -/
theorem C7_counterexample :
    (extract_form_data (.ok C7Raw) C7Parse).summary =
      some [("callSummary", JValue.str "ok"),
        ("summaryAccuracy", JValue.str "Very accurate"),
        ("keepConfidential", JValue.bool true)] ∧
    dictGet [("callSummary", JValue.str "ok"),
        ("summaryAccuracy", JValue.str "Very accurate"),
        ("keepConfidential", JValue.bool true)] "summaryAccuracy" =
      some (JValue.str "Very accurate") ∧
    JValue.str "Very accurate" ≠ JValue.null :=
  ⟨rfl, rfl, fun h => JValue.noConfusion h⟩

/-- C7 amended: the pipeline itself never writes the reserved keys
(`summaryAccuracy`, `summaryFeedback`, `otherLocation`): any such key in a
returned record's summary is absent or carried verbatim from the model's
summary section — it is absent whenever the model did not set it (in
particular in every fallback record). -/
theorem C7_amended :
    ∀ (modelResult : Except LLMError String) (jsonParse : String → Option JValue)
      (k : String),
      k ∈ ["summaryAccuracy", "summaryFeedback", "otherLocation"] →
      ∀ l, (extract_form_data modelResult jsonParse).summary = some l →
      dictGet l k = none ∨
      ∃ raw data kvs skvs, modelResult = .ok raw ∧
        jsonParse (clean_json_response raw) = some data ∧ data = .obj kvs ∧
        dictGetD kvs "summary" (.obj []) = .obj skvs ∧
        dictGet l k = dictGet skvs k := by
  intro mr parse k hk l hl
  have hks : k = "summaryAccuracy" ∨ k = "summaryFeedback" ∨ k = "otherLocation" := by
    simpa using hk
  have hk1 : k ≠ "callSummary" := by rcases hks with rfl | rfl | rfl <;> decide
  have hk2 : k ≠ "keepConfidential" := by rcases hks with rfl | rfl | rfl <;> decide
  have hcs : ("callSummary" : String) ≠ k := fun hx => hk1 hx.symm
  cases mr with
  | error e =>
    left
    injection hl with hl
    rw [← hl]
    simp [dictGet, hcs]
  | ok raw =>
    cases hp : parse (clean_json_response raw) with
    | none =>
      left
      rw [extract_ok_parse_none raw parse hp] at hl
      injection hl with hl
      rw [← hl]
      simp [dictGet, hcs]
    | some data =>
      cases hes : extract_success data with
      | error e =>
        left
        rw [extract_ok_success_error raw parse data e hp hes] at hl
        injection hl with hl
        rw [← hl]
        simp [dictGet, hcs]
      | ok resp =>
        right
        rw [extract_ok_success_ok raw parse data resp hp hes] at hl
        obtain ⟨kvs, child, category, summary, hobj, hchild, hcat, hsum, hmk⟩ :=
          extract_success_eq_ok data resp hes
        obtain ⟨hrs, _, _⟩ := mkAutoFillResponse_eq_ok _ _ _ _ _ hmk
        rw [hrs] at hl
        injection hl with hl
        subst hl
        obtain ⟨skvs, hsobj, hother, _⟩ := process_summary_eq_ok _ _ hsum
        exact ⟨raw, data, kvs, skvs, rfl, hp, hobj, hsobj, hother k hk1 hk2⟩

/-- Witness for the hypotheses of `C7_amended` at a concrete fallback run and
the reserved key "summaryAccuracy". -/
theorem C7_amended_witness :
    ("summaryAccuracy" : String) ∈ ["summaryAccuracy", "summaryFeedback", "otherLocation"] ∧
    (extract_form_data (.error C7WErr) (fun _ => none)).summary =
      some [("callSummary", JValue.str "Unable to auto-fill. Please enter manually.")] ∧
    (dictGet [("callSummary", JValue.str "Unable to auto-fill. Please enter manually.")]
        "summaryAccuracy" = none ∨
      ∃ raw data kvs skvs, (Except.error C7WErr : Except LLMError String) = .ok raw ∧
        (fun (_ : String) => (none : Option JValue)) (clean_json_response raw) = some data ∧
        data = .obj kvs ∧
        dictGetD kvs "summary" (.obj []) = .obj skvs ∧
        dictGet [("callSummary",
          JValue.str "Unable to auto-fill. Please enter manually.")] "summaryAccuracy" =
          dictGet skvs "summaryAccuracy") :=
  ⟨by decide, rfl,
   C7_amended (.error C7WErr) (fun _ => none) "summaryAccuracy" (by decide) _ rfl⟩

/-- C10: when the parsed reply's child section carries an age that survives
the pass-through normalization (any truthy string) whose stripped form is not
one of the typed record's CHILD_AGE literals, constructing the typed response
fails validation and the generic handler returns the minimal fallback record
— every other correctly extracted field (e.g. the first name) is discarded
with it. -/
theorem C10_age_validation :
    ∀ (raw : String) (jsonParse : String → Option JValue)
      (kvs ckvs : List (String × JValue)) (s : String),
      jsonParse (clean_json_response raw) = some (.obj kvs) →
      dictGetD kvs "child" (.obj []) = .obj ckvs →
      dictGetD ckvs "age" .null = .str s →
      s ≠ "" →
      pyStrip s ∉ CHILD_AGE →
      extract_form_data (.ok raw) jsonParse = fallbackResponse ∧
      (extract_form_data (.ok raw) jsonParse).firstName = none := by
  intro raw parse kvs ckvs s hp hchild hage hs hnotin
  have hmain : extract_form_data (.ok raw) parse = fallbackResponse := by
    cases hes : extract_success (.obj kvs) with
    | error e => exact extract_ok_success_error raw parse _ e hp hes
    | ok resp =>
      exfalso
      obtain ⟨kvs2, child, category, summary, hobj, hvc, _, _, hmk⟩ :=
        extract_success_eq_ok _ _ hes
      injection hobj with hobj
      subst hobj
      rw [hchild] at hvc
      have hagec : child.age = some (pyStrip s) := by
        rw [validate_child_data_age _ _ hvc, hage]
        unfold normalize_age
        have ht : truthy (.str s) = true := by simp [truthy, hs]
        rw [ht]
        rfl
      obtain ⟨_, _, hlit⟩ := mkAutoFillResponse_eq_ok _ _ _ _ _ hmk
      rw [apply_intelligent_defaults_age, hagec] at hlit
      unfold litOk at hlit
      exact hnotin (by simpa [List.contains] using hlit)
  exact ⟨hmain, by rw [hmain]; rfl⟩

/-- Witness for the hypotheses of `C10_age_validation` at the concrete age
string "16 years" alongside the extractable first name "Maria". -/
theorem C10_age_validation_witness :
    (C10Parse (clean_json_response C10Raw) = some (.obj C10KVs) ∧
     dictGetD C10KVs "child" (.obj []) = .obj C10CKVs ∧
     dictGetD C10CKVs "age" .null = .str "16 years" ∧
     ("16 years" : String) ≠ "" ∧ pyStrip "16 years" ∉ CHILD_AGE) ∧
    extract_form_data (.ok C10Raw) C10Parse = fallbackResponse ∧
    (extract_form_data (.ok C10Raw) C10Parse).firstName = none :=
  ⟨⟨rfl, rfl, rfl, by decide, by decide⟩,
   (C10_age_validation C10Raw C10Parse C10KVs C10CKVs "16 years" rfl rfl rfl
      (by decide) (by decide)).1,
   (C10_age_validation C10Raw C10Parse C10KVs C10CKVs "16 years" rfl rfl rfl
      (by decide) (by decide)).2⟩

/-! ## Claim C5 -/

/-- C5 counterexample: on input that already starts with a brace but has
trailing text after the last brace, the claim says the sanitizer keeps the
trimmed text as-is, but the code always takes the first-to-last-brace span
and drops the trailing text. -/
theorem C5_counterexample :
    clean_json_response C5Input = "\x7b\"a\": 1\x7d" ∧
    clean_json_spec C5Input = C5Input ∧
    clean_json_response C5Input ≠ clean_json_spec C5Input :=
  ⟨rfl, rfl, by decide⟩

/-- C5 amended: the sanitizer trims and then unconditionally takes the span
from the first opening brace to the last closing brace whenever the latter
comes strictly later (also when the text already starts with a brace, so
trailing content is dropped), and returns the empty-object literal otherwise;
its output therefore always starts with an opening brace and ends with a
closing brace. -/
theorem C5_amended :
    ∀ raw : String,
      ((∃ i j, strFind (pyStrip raw) lbrace = some i ∧
          strRFind (pyStrip raw) rbrace = some j ∧ i < j ∧
          clean_json_response raw = strSlice (pyStrip raw) i j) ∨
        clean_json_response raw = "\x7b\x7d") ∧
      (clean_json_response raw).data.head? = some lbrace ∧
      (clean_json_response raw).data.getLast? = some rbrace := by
  intro raw
  rcases hf : strFind (pyStrip raw) lbrace with _ | i
  · have hc : clean_json_response raw = "\x7b\x7d" := by
      unfold clean_json_response
      dsimp only
      rw [hf]
    rw [hc]
    exact ⟨Or.inr rfl, rfl, rfl⟩
  · rcases hg : strRFind (pyStrip raw) rbrace with _ | j
    · have hc : clean_json_response raw = "\x7b\x7d" := by
        unfold clean_json_response
        dsimp only
        rw [hf, hg]
      rw [hc]
      exact ⟨Or.inr rfl, rfl, rfl⟩
    · by_cases hij : j > i
      · have hc : clean_json_response raw = strSlice (pyStrip raw) i j := by
          unfold clean_json_response
          dsimp only
          rw [hf, hg]
          dsimp only
          rw [if_pos hij]
        -- index facts from the two searches
        have hfi := List.findIdx?_eq_some_iff_getElem.mp hf
        obtain ⟨hi, hpi, -⟩ := hfi
        have hcsi : (pyStrip raw).data[i] = lbrace := by
          simpa using hpi
        obtain ⟨i2, hg2, hj2⟩ := Option.map_eq_some'.mp hg
        obtain ⟨hi2r, hpi2, -⟩ := List.findIdx?_eq_some_iff_getElem.mp hg2
        have hi2 : i2 < (pyStrip raw).data.length := by simpa using hi2r
        have hrevsome : (pyStrip raw).data.reverse[i2]? = some rbrace := by
          rw [List.getElem?_eq_getElem hi2r]
          simpa using hpi2
        have hjlt : j < (pyStrip raw).data.length := by omega
        have hcsj : (pyStrip raw).data[j]? = some rbrace := by
          have hrev : (pyStrip raw).data.reverse[i2]? =
              (pyStrip raw).data[(pyStrip raw).data.length - 1 - i2]? :=
            List.getElem?_reverse hi2
          rw [hrevsome] at hrev
          rw [← hj2]
          exact hrev.symm
        have hslice : (strSlice (pyStrip raw) i j).data =
            (((pyStrip raw).data.drop i).take (j + 1 - i)) := rfl
        have hlen : (((pyStrip raw).data.drop i).take (j + 1 - i)).length = j + 1 - i := by
          rw [List.length_take, List.length_drop]
          omega
        refine ⟨Or.inl ⟨i, j, rfl, rfl, hij, hc⟩, ?_, ?_⟩
        · rw [hc, hslice, List.head?_eq_getElem?]
          rw [List.getElem?_take_of_lt (by omega)]
          rw [List.getElem?_drop]
          have : i + 0 = i := by omega
          rw [this]
          rw [List.getElem?_eq_getElem hi, hcsi]
        · rw [hc, hslice, List.getLast?_eq_getElem?, hlen]
          have h1 : j + 1 - i - 1 = j - i := by omega
          rw [h1]
          rw [List.getElem?_take_of_lt (by omega)]
          rw [List.getElem?_drop]
          have h2 : i + (j - i) = j := by omega
          rw [h2]
          exact hcsj
      · have hc : clean_json_response raw = "\x7b\x7d" := by
          unfold clean_json_response
          dsimp only
          rw [hf, hg]
          dsimp only
          rw [if_neg hij]
        rw [hc]
        exact ⟨Or.inr rfl, rfl, rfl⟩

end Aselo
